import Mathlib

/-!
Shallow embedding of the AgriNexus core pipeline, from
`src/agrinexus_core/src/agents.py` (class `CropConsultant`: `analyze_field`,
`research_solutions`, `generate_plan`) and
`src/agrinexus_core/src/search_tool.py` (class `AgriSearch`: `search`).

Modelling conventions:
* Python `float` values are modelled over `ℚ`; the decision logic only
  compares sums, quotients and the literal thresholds 120 and 40.
* `print` calls and `time.sleep` are I/O with no effect on the returned
  values and are omitted.
* The live DuckDuckGo call inside `AgriSearch.search` is external; its
  outcome is passed in as an explicit `Option (List Doc)` oracle.
-/

namespace AgriNexus

/-- A knowledge document, the dict `{"title": ..., "body": ...}` used by
`search_tool.py` and read by `generate_plan`. -/
structure Doc where
  title : String
  body : String
deriving DecidableEq

/-- One per-zone sensor reading.  The reading dicts produced by
`sensors.py` also carry `zone_id`, `phosphorus`, `potassium`, `ph` and
`status` keys, but `CropConsultant.analyze_field` only ever reads the
`nitrogen` and `moisture` keys, so only those are modelled. -/
structure Reading where
  nitrogen : ℚ
  moisture : ℚ
deriving DecidableEq

/-- Python exceptions relevant to `analyze_field`.  `zeroDivisionError` is
the built-in raised by `sum(...) / len(sensor_readings)` on an empty list.
`insufficientDataError` models the `InsufficientDataError` named by the
specification; no code in the repository defines or raises it — the
constructor exists only so that the spec's claim about it can be stated. -/
inductive PyError where
  | zeroDivisionError
  | insufficientDataError
deriving DecidableEq

/-- The dict returned by `analyze_field`:
`{"avg_n": avg_n, "avg_m": avg_m, "anomalies": anomalies}`. -/
structure Diagnosis where
  avg_n : ℚ
  avg_m : ℚ
  anomalies : List String
deriving DecidableEq

/-- The dataclass `Recommendation` of `agents.py`. -/
structure Recommendation where
  alert_level : String
  diagnosis : String
  action_plan : String
  sources : List String
deriving DecidableEq

/-- Anomaly label appended when `avg_n < 120`. -/
def nitrogenLabel : String := "Nitrogen Deficiency detected across multiple zones"

/-- Anomaly label appended when `avg_m > 40`. -/
def moistureLabel : String := "Excessive Soil Moisture detected"

/-- The expression `sum(r['nitrogen'] for r in sensor_readings) / len(sensor_readings)`
of `analyze_field` (meaningful only for non-empty input). -/
def avg_nitrogen (sensor_readings : List Reading) : ℚ :=
  (sensor_readings.map Reading.nitrogen).sum / sensor_readings.length

/-- The expression `sum(r['moisture'] for r in sensor_readings) / len(sensor_readings)`
of `analyze_field` (meaningful only for non-empty input). -/
def avg_moisture (sensor_readings : List Reading) : ℚ :=
  (sensor_readings.map Reading.moisture).sum / sensor_readings.length

/-- `CropConsultant.analyze_field`.  On an empty list the division by
`len(sensor_readings)` raises `ZeroDivisionError` (there is no emptiness
guard in the code); otherwise the two field averages are computed and the
anomaly list is built, nitrogen check first, then moisture check. -/
def analyze_field (sensor_readings : List Reading) : Except PyError Diagnosis :=
  if sensor_readings.length = 0 then
    .error .zeroDivisionError
  else
    .ok
      { avg_n := avg_nitrogen sensor_readings
        avg_m := avg_moisture sensor_readings
        anomalies :=
          (if avg_nitrogen sensor_readings < 120 then [nitrogenLabel] else []) ++
          (if avg_moisture sensor_readings > 40 then [moistureLabel] else []) }

/-- The static action-plan text of `generate_plan` (the mock LLM synthesis),
assembled in the source from adjacent string literals. -/
def mockPlanText : String :=
  "**IMMEDIATE ACTION REQUIRED**\n\n" ++
  "1. **Nitrogen Application**: Field averages indicate critical N deficiency (Avg < 120mg/kg). " ++
  "However, due to high moisture levels, standard pre-plant application is ineffective.\n" ++
  "2. **Recommendation**: Switch to a **side-dress application** of UAN-28 or Urea with a urease inhibitor. " ++
  "Wait for soil to drain to field capacity before traffic to avoid compaction.\n" ++
  "3. **Rate**: Target 40-60 lbs N/acre rescue application."

/-- `CropConsultant.generate_plan`.  The `time.sleep(1.0)` and the print are
omitted; `research[:2]` is `List.take 2`; `"; ".join(...)` is
`String.intercalate "; "`. -/
def generate_plan (diagnosis : Diagnosis) (research : List Doc) : Recommendation :=
  if diagnosis.anomalies = [] then
    { alert_level := "GREEN"
      diagnosis := "Optimal Conditions"
      action_plan := "Continue monitoring. No intervention required."
      sources := [] }
  else
    { alert_level := if diagnosis.anomalies.length > 1 then "RED" else "YELLOW"
      diagnosis := String.intercalate "; " diagnosis.anomalies
      action_plan := mockPlanText
      sources := (research.take 2).map Doc.title }

/-- Python's substring test `pat in s`. -/
def hasSubstr (s pat : String) : Bool := decide (pat.data <:+: s.data)

/-- The `mock_db` dict of `AgriSearch.__init__`, as an association list in
insertion order (Python dict iteration order). -/
def mock_db : List (String × List Doc) :=
  [("corn nitrogen deficiency treatments",
    [{ title := "Management of Nitrogen Deficiency in Corn"
       body := "Apply side-dress nitrogen immediately at V4-V8 stages. Sources like UAN or Urea are effective. Rate: 40-60 lbs/acre. Delayed application can recover up to 90% of yield potential." },
     { title := "Identifying Nutrient Deficiencies in Corn"
       body := "Yellowing in V-shape starting at leaf tip indicates N deficiency. Wet soils can exacerbate leaching, requiring supplemental N." },
     { title := "Wet Season Corn Nitrogen Management"
       body := "In years with excessive rainfall, additional N applications (30-50 lbs N/acre) are profitable. Rescue applications must occur before silking." }]),
   ("corn nitrogen deficiency heavy rainfall",
    [{ title := "Nitrogen Loss from Heavy Rains"
       body := "Heavy rainfall causes denitrification and leaching. For every inch of rain above soil saturation, expect 2-4% nitrate loss. Supplemental N is critical." }]),
   ("soybean moisture requirements",
    [{ title := "Soybean Water Requirements"
       body := "Soybeans require 15-25 inches of water per season. Critical period is pod filling (R3-R6)." }])]

/-- The matching test of the simulation branch:
`all(k in query_lower for k in key.split())`.  The fixed `mock_db` keys are
single-space separated, so Python's whitespace `split()` coincides with
`splitOn " "` on them. -/
def matchKey (queryLower key : String) : Bool :=
  (key.splitOn " ").all fun k => hasSubstr queryLower k

/-- The generic fallback document returned by the simulation branch when no
`mock_db` key matches the query. -/
def fallbackDoc (query : String) : Doc :=
  { title := "Agricultural Bulletin: " ++ query
    body := "Recent studies show that regarding " ++ query ++ ", optimal management requires monitoring soil conditions and weather patterns closely." }

/-- The `results` accumulation loop of the simulation branch of
`AgriSearch.search`: extend `results` with the documents of every `mock_db`
entry all of whose key words occur in `query.lower()`. -/
def simResults (query : String) : List Doc :=
  mock_db.foldl
    (fun results kv => if matchKey query.toLower kv.1 then results ++ kv.2 else results)
    []

/-- The simulation branch of `AgriSearch.search`: truncate matched results
to `max_results`, or return the one-element generic fallback when nothing
matched. -/
def searchSim (query : String) (max_results : Nat) : List Doc :=
  let results := simResults query
  if results ≠ [] then results.take max_results
  else [fallbackDoc query]

/-- The key of the hard-coded live-mode fallback `self.mock_db.get(...)`. -/
def cornFallbackKey : String := "corn nitrogen deficiency treatments"

/-- `AgriSearch.search`.  `simulation_mode` is the constructor flag
(default `true`).  `ddg` abstracts the external DuckDuckGo call of the live
branch: `some results` when `DDGS().text(query, max_results=max_results)`
succeeds (the code returns the mapped results unchanged, without truncating
them itself), `none` when `DDGS` is unavailable (import failed) or the call
raised, in which case the code returns `self.mock_db.get(cornFallbackKey)`.
The Python default for `max_results` is 3. -/
def search (simulation_mode : Bool) (ddg : Option (List Doc)) (query : String)
    (max_results : Nat) : List Doc :=
  if simulation_mode then
    searchSim query max_results
  else
    match ddg with
    | some results => results
    | none => (mock_db.lookup cornFallbackKey).getD []

/-- The ASCII single-quote character used by Python's `str`/`repr` of a
list of strings. -/
def quoteChar : Char := Char.ofNat 39

/-- The comma-space-quoted rendering of the elements of a Python list of
strings inside `str(...)`: `'a', 'b', 'c'` (as a character list).  `repr`
escaping inside an element is not modelled; it can only differ for elements
containing a quote or backslash character, and no pattern reasoned about in
this development (nor any anomaly label the program produces) contains a
quote or backslash, so occurrences of those patterns are unaffected. -/
def pyReprList : List (List Char) → List Char
  | [] => []
  | [x] => quoteChar :: (x ++ [quoteChar])
  | x :: y :: xs => quoteChar :: (x ++ quoteChar :: ',' :: ' ' :: pyReprList (y :: xs))

/-- Python's `str(anomalies)` for a list of strings: `['a', 'b']`. -/
def pyStrList (xs : List String) : String :=
  ⟨'[' :: (pyReprList (xs.map String.data) ++ [']'])⟩

/-- The primary query `f"{crop} {issue} treatments"` of `research_solutions`. -/
def primaryQuery (crop issue : String) : String :=
  crop ++ " " ++ issue ++ " treatments"

/-- The secondary (refinement) query
`f"{crop} nitrogen deficiency heavy rainfall leaching"` of `research_solutions`. -/
def refinementQuery (crop : String) : String :=
  crop ++ " nitrogen deficiency heavy rainfall leaching"

/-- The refinement condition of `research_solutions`:
`"Nitrogen" in issue and "Moisture" in str(anomalies)`. -/
def refineTrigger (anomalies : List String) (issue : String) : Bool :=
  hasSubstr issue "Nitrogen" && hasSubstr (pyStrList anomalies) "Moisture"

/-- `CropConsultant.research_solutions`.  The knowledge lookup
`self.search_tool.search` is passed in as the function `search_tool`
(the code calls it with its default `max_results`); the `for` loop with
`findings.extend(results)` is a left fold over the anomaly labels. -/
def research_solutions (search_tool : String → List Doc) (anomalies : List String)
    (crop : String) : List Doc :=
  if anomalies = [] then []
  else
    anomalies.foldl
      (fun findings issue =>
        let results := search_tool (primaryQuery crop issue)
        let results :=
          if refineTrigger anomalies issue then
            results ++ search_tool (refinementQuery crop)
          else results
        findings ++ results)
      []

/-- The queries `research_solutions` passes to the knowledge lookup, in
call order (observable as the `search_tool.search` invocations): for each
anomaly the primary query, immediately followed by the refinement query
when the refinement condition holds. -/
def researchQueries (anomalies : List String) (crop : String) : List String :=
  if anomalies = [] then []
  else
    anomalies.foldl
      (fun queries issue =>
        queries ++ [primaryQuery crop issue] ++
          (if refineTrigger anomalies issue then [refinementQuery crop] else []))
      []

theorem nitrogenLabel_ne_moistureLabel : nitrogenLabel ≠ moistureLabel := by decide

theorem avg_nitrogen_singleton (r : Reading) : avg_nitrogen [r] = r.nitrogen := by
  simp [avg_nitrogen]

theorem avg_moisture_singleton (r : Reading) : avg_moisture [r] = r.moisture := by
  simp [avg_moisture]

theorem analyze_field_eq (sensor_readings : List Reading) (h : sensor_readings ≠ []) :
    analyze_field sensor_readings =
      .ok ⟨avg_nitrogen sensor_readings, avg_moisture sensor_readings,
        (if avg_nitrogen sensor_readings < 120 then [nitrogenLabel] else []) ++
        (if avg_moisture sensor_readings > 40 then [moistureLabel] else [])⟩ := by
  have hlen : ¬ sensor_readings.length = 0 := by simpa using h
  simp only [analyze_field]
  rw [if_neg hlen]

/-- C2 counterexample: on the empty reading list `analyze_field` fails with
Python's `ZeroDivisionError` — a division by zero does occur — and that is
not the `InsufficientDataError` the claim names (no such error exists in
the code). -/
theorem c2_counterexample :
    analyze_field ([] : List Reading) = .error .zeroDivisionError ∧
      PyError.zeroDivisionError ≠ PyError.insufficientDataError :=
  ⟨rfl, by decide⟩

/-- C2 (amended): on an empty reading list the diagnosis operation fails
with an unhandled `ZeroDivisionError`, not a labeled `InsufficientDataError`;
on every non-empty reading list it succeeds, so no division by zero occurs
there. -/
theorem c2_empty_readings_behaviour :
    analyze_field ([] : List Reading) = .error .zeroDivisionError ∧
      ∀ sensor_readings : List Reading, sensor_readings ≠ [] →
        ∃ d, analyze_field sensor_readings = .ok d := by
  exact ⟨rfl, fun rs h => ⟨_, analyze_field_eq rs h⟩⟩

theorem c2_empty_readings_behaviour_witness :
    ∃ d, analyze_field [({ nitrogen := 100, moisture := 50 } : Reading)] = .ok d :=
  c2_empty_readings_behaviour.2 [{ nitrogen := 100, moisture := 50 }] (by simp)

/-- C3: for every non-empty reading list the diagnosis succeeds and its
anomaly list is exactly the nitrogen-deficiency entry (present iff the mean
nitrogen is < 120) followed by the excessive-moisture entry (present iff
the mean moisture is > 40); no other label ever appears. -/
theorem c3_anomaly_construction (sensor_readings : List Reading)
    (h : sensor_readings ≠ []) :
    ∃ d, analyze_field sensor_readings = .ok d ∧
      d.anomalies =
        (if avg_nitrogen sensor_readings < 120 then [nitrogenLabel] else []) ++
        (if avg_moisture sensor_readings > 40 then [moistureLabel] else []) ∧
      (nitrogenLabel ∈ d.anomalies ↔ avg_nitrogen sensor_readings < 120) ∧
      (moistureLabel ∈ d.anomalies ↔ avg_moisture sensor_readings > 40) ∧
      ∀ a ∈ d.anomalies, a = nitrogenLabel ∨ a = moistureLabel := by
  refine ⟨_, analyze_field_eq sensor_readings h, rfl, ?_, ?_, ?_⟩ <;>
  · by_cases hn : avg_nitrogen sensor_readings < 120 <;>
    by_cases hm : avg_moisture sensor_readings > 40 <;>
    simp [hn, hm, nitrogenLabel_ne_moistureLabel,
      Ne.symm nitrogenLabel_ne_moistureLabel]

theorem c3_anomaly_construction_witness :
    ∃ d, analyze_field [({ nitrogen := 100, moisture := 50 } : Reading)] = .ok d ∧
      d.anomalies =
        (if avg_nitrogen [({ nitrogen := 100, moisture := 50 } : Reading)] < 120
          then [nitrogenLabel] else []) ++
        (if avg_moisture [({ nitrogen := 100, moisture := 50 } : Reading)] > 40
          then [moistureLabel] else []) ∧
      (nitrogenLabel ∈ d.anomalies ↔
        avg_nitrogen [({ nitrogen := 100, moisture := 50 } : Reading)] < 120) ∧
      (moistureLabel ∈ d.anomalies ↔
        avg_moisture [({ nitrogen := 100, moisture := 50 } : Reading)] > 40) ∧
      ∀ a ∈ d.anomalies, a = nitrogenLabel ∨ a = moistureLabel :=
  c3_anomaly_construction [{ nitrogen := 100, moisture := 50 }] (by simp)

/-- C4: for every non-empty reading list, the diagnosis's anomaly list is
empty iff its computed average nitrogen is ≥ 120 and its computed average
moisture is ≤ 40. -/
theorem c4_empty_iff_nominal (sensor_readings : List Reading)
    (h : sensor_readings ≠ []) (d : Diagnosis)
    (hd : analyze_field sensor_readings = .ok d) :
    d.anomalies = [] ↔ 120 ≤ d.avg_n ∧ d.avg_m ≤ 40 := by
  rw [analyze_field_eq sensor_readings h, Except.ok.injEq] at hd
  subst hd
  dsimp only
  constructor
  · intro he
    rcases List.append_eq_nil.mp he with ⟨h1, h2⟩
    constructor
    · by_contra hc
      rw [not_le] at hc
      rw [if_pos hc] at h1
      exact List.cons_ne_nil _ _ h1
    · by_contra hc
      rw [not_le] at hc
      rw [if_pos hc] at h2
      exact List.cons_ne_nil _ _ h2
  · rintro ⟨h1, h2⟩
    rw [if_neg (not_lt.mpr h1), if_neg (not_lt.mpr h2), List.append_nil]

theorem c4_empty_iff_nominal_witness :
    (⟨100, 50, [nitrogenLabel, moistureLabel]⟩ : Diagnosis).anomalies = [] ↔
      120 ≤ (⟨100, 50, [nitrogenLabel, moistureLabel]⟩ : Diagnosis).avg_n ∧
        (⟨100, 50, [nitrogenLabel, moistureLabel]⟩ : Diagnosis).avg_m ≤ 40 :=
  c4_empty_iff_nominal [{ nitrogen := 100, moisture := 50 }] (by simp) _ (by
    rw [analyze_field_eq _ (by simp)]
    simp [avg_nitrogen_singleton, avg_moisture_singleton,
      show (100 : ℚ) < 120 by decide, show (40 : ℚ) < 50 by decide])

/-- C5: the synthesized alert level is GREEN iff the anomaly list is empty,
RED iff it has more than one entry, and YELLOW iff it has exactly one. -/
theorem c5_alert_level (d : Diagnosis) (research : List Doc) :
    ((generate_plan d research).alert_level = "GREEN" ↔ d.anomalies = []) ∧
    ((generate_plan d research).alert_level = "RED" ↔ 1 < d.anomalies.length) ∧
    ((generate_plan d research).alert_level = "YELLOW" ↔ d.anomalies.length = 1) := by
  rcases hd : d.anomalies with _ | ⟨a, _ | ⟨b, l⟩⟩ <;>
    simp [generate_plan, hd]

/-- C6: with a non-empty anomaly list the recommendation's sources are the
titles of the first two findings in encounter order, their number is
min 2 (number of findings), and empty findings yield empty sources without
failure. -/
theorem c6_sources (d : Diagnosis) (research : List Doc) (h : d.anomalies ≠ []) :
    (generate_plan d research).sources = (research.take 2).map Doc.title ∧
    (generate_plan d research).sources.length = min 2 research.length ∧
    (research = [] → (generate_plan d research).sources = []) := by
  refine ⟨by simp [generate_plan, h], by simp [generate_plan, h], fun hr => ?_⟩
  subst hr
  simp [generate_plan, h]

theorem c6_sources_witness :
    (generate_plan ⟨80, 50, [nitrogenLabel]⟩ [fallbackDoc "corn"]).sources =
        (([fallbackDoc "corn"] : List Doc).take 2).map Doc.title ∧
    (generate_plan ⟨80, 50, [nitrogenLabel]⟩ [fallbackDoc "corn"]).sources.length =
        min 2 ([fallbackDoc "corn"] : List Doc).length ∧
    (([fallbackDoc "corn"] : List Doc) = [] →
      (generate_plan ⟨80, 50, [nitrogenLabel]⟩ [fallbackDoc "corn"]).sources = []) :=
  c6_sources ⟨80, 50, [nitrogenLabel]⟩ [fallbackDoc "corn"] (by simp)

/-- C7: with an empty anomaly list the synthesizer returns exactly the
GREEN "Optimal Conditions" recommendation, regardless of the findings. -/
theorem c7_green_recommendation (d : Diagnosis) (research : List Doc)
    (h : d.anomalies = []) :
    generate_plan d research =
      { alert_level := "GREEN"
        diagnosis := "Optimal Conditions"
        action_plan := "Continue monitoring. No intervention required."
        sources := [] } := by
  simp [generate_plan, h]

theorem c7_green_recommendation_witness :
    generate_plan ⟨150, 30, []⟩ [fallbackDoc "corn"] =
      { alert_level := "GREEN"
        diagnosis := "Optimal Conditions"
        action_plan := "Continue monitoring. No intervention required."
        sources := [] } :=
  c7_green_recommendation ⟨150, 30, []⟩ [fallbackDoc "corn"] rfl

/-- C8: on an empty anomaly list the research phase returns no findings and
issues no knowledge-lookup queries, for every crop and every lookup. -/
theorem c8_short_circuit (search_tool : String → List Doc) (crop : String) :
    research_solutions search_tool [] crop = [] ∧ researchQueries [] crop = [] :=
  ⟨rfl, rfl⟩

theorem infix_cons_right_iff {α : Type*} {c : α} {p l : List α} (hc : c ∉ p) :
    p <:+: c :: l ↔ p <:+: l := by
  constructor
  · rintro ⟨s, t, hst⟩
    cases s with
    | nil =>
      cases p with
      | nil => exact ⟨[], l, rfl⟩
      | cons q p' =>
        simp only [List.nil_append, List.cons_append, List.cons.injEq] at hst
        obtain ⟨rfl, rfl⟩ := hst
        exact absurd (List.mem_cons_self _ _) hc
    | cons a s' =>
      simp only [List.cons_append, List.cons.injEq] at hst
      exact ⟨s', t, hst.2⟩
  · rintro ⟨s, t, hst⟩
    exact ⟨c :: s, t, by simp [hst]⟩

theorem infix_concat_right_iff {α : Type*} {c : α} {p l : List α} (hc : c ∉ p) :
    p <:+: l ++ [c] ↔ p <:+: l := by
  constructor
  · intro hI
    have h1 : p.reverse <:+: c :: l.reverse := by
      simpa using List.reverse_infix.mpr hI
    have h2 := (infix_cons_right_iff (by simpa using hc)).mp h1
    have h3 := List.reverse_infix.mp (by simpa using h2)
    simpa using h3
  · rintro ⟨s, t, hst⟩
    exact ⟨s, t ++ [c], by rw [← hst]; simp⟩

theorem prefix_of_prefix_append_cons {α : Type*} {c : α} {p u v : List α} (hc : c ∉ p)
    (h : p <+: u ++ c :: v) : p <+: u := by
  induction p generalizing u with
  | nil => exact List.nil_prefix
  | cons q p' ih =>
    cases u with
    | nil =>
      rw [List.nil_append, List.cons_prefix_cons] at h
      obtain ⟨rfl, -⟩ := h
      exact absurd (List.mem_cons_self _ _) hc
    | cons a u' =>
      rw [List.cons_append, List.cons_prefix_cons] at h
      obtain ⟨rfl, h'⟩ := h
      exact List.cons_prefix_cons.mpr
        ⟨rfl, ih (fun hm => hc (List.mem_cons_of_mem _ hm)) h'⟩

theorem infix_append_cons_iff {α : Type*} {c : α} {p u v : List α} (hc : c ∉ p) :
    p <:+: u ++ c :: v ↔ p <:+: u ∨ p <:+: v := by
  induction u with
  | nil =>
    rw [List.nil_append, infix_cons_right_iff hc]
    constructor
    · exact Or.inr
    · rintro (hp | hp)
      · rw [List.infix_nil] at hp
        subst hp
        exact ⟨[], v, rfl⟩
      · exact hp
  | cons a u' ih =>
    constructor
    · intro hp
      rcases List.infix_cons_iff.mp (by simpa using hp) with h' | h'
      · exact Or.inl (prefix_of_prefix_append_cons hc (by simpa using h')).isInfix
      · rcases ih.mp h' with h'' | h''
        · exact Or.inl (h''.trans ⟨[a], [], by simp⟩)
        · exact Or.inr h''
    · rintro (hp | hp)
      · rcases hp with ⟨s, t, hst⟩
        exact ⟨s, t ++ c :: v, by rw [← hst]; simp⟩
      · rcases hp with ⟨s, t, hst⟩
        exact ⟨(a :: u') ++ c :: s, t, by rw [← hst]; simp⟩

theorem infix_pyReprList {p : List Char} (hp : p ≠ []) (h1 : quoteChar ∉ p)
    (h2 : ',' ∉ p) (h3 : ' ' ∉ p) :
    ∀ L : List (List Char), (p <:+: pyReprList L ↔ ∃ x ∈ L, p <:+: x)
  | [] => by
    simp [pyReprList, List.infix_nil, hp]
  | [x] => by
    simp only [pyReprList]
    rw [infix_cons_right_iff h1, infix_concat_right_iff h1]
    simp
  | x :: y :: xs => by
    simp only [pyReprList]
    rw [infix_cons_right_iff h1, infix_append_cons_iff h1, infix_cons_right_iff h2,
      infix_cons_right_iff h3, infix_pyReprList hp h1 h2 h3 (y :: xs)]
    simp

theorem hasSubstr_pyStrList (pat : String) (anomalies : List String) (hp : pat.data ≠ [])
    (h1 : quoteChar ∉ pat.data) (h2 : ',' ∉ pat.data) (h3 : ' ' ∉ pat.data)
    (h4 : '[' ∉ pat.data) (h5 : ']' ∉ pat.data) :
    hasSubstr (pyStrList anomalies) pat = anomalies.any fun a => hasSubstr a pat := by
  have key : pat.data <:+: (pyStrList anomalies).data ↔
      ∃ x ∈ anomalies, pat.data <:+: x.data := by
    show pat.data <:+: '[' :: (pyReprList (anomalies.map String.data) ++ [']']) ↔ _
    rw [infix_cons_right_iff h4, infix_concat_right_iff h5,
      infix_pyReprList hp h1 h2 h3 (anomalies.map String.data)]
    simp
  rw [Bool.eq_iff_iff]
  simp only [hasSubstr, decide_eq_true_eq, List.any_eq_true]
  exact key.trans (by simp)

theorem refineTrigger_eq (anomalies : List String) (issue : String) :
    refineTrigger anomalies issue =
      (hasSubstr issue "Nitrogen" && anomalies.any fun a => hasSubstr a "Moisture") := by
  rw [refineTrigger, hasSubstr_pyStrList "Moisture" anomalies (by decide) (by decide)
    (by decide) (by decide) (by decide) (by decide)]

theorem primaryQuery_ne_refinementQuery (crop issue : String) :
    primaryQuery crop issue ≠ refinementQuery crop := by
  intro h
  have hd := congrArg (fun s : String => s.data.getLast?) h
  simp only [primaryQuery, refinementQuery, String.data_append, List.getLast?_append] at hd
  rw [show (" treatments" : String).data.getLast? = some 's' from by decide,
    show (" nitrogen deficiency heavy rainfall leaching" : String).data.getLast? = some 'g'
      from by decide] at hd
  simp at hd

theorem research_foldl_eq (search_tool : String → List Doc) (full : List String)
    (crop : String) :
    ∀ (l : List String) (acc : List Doc),
      (l.foldl
        (fun findings issue =>
          let results := search_tool (primaryQuery crop issue)
          let results :=
            if refineTrigger full issue then results ++ search_tool (refinementQuery crop)
            else results
          findings ++ results)
        acc) =
      acc ++ l.flatMap (fun issue =>
        if refineTrigger full issue then
          search_tool (primaryQuery crop issue) ++ search_tool (refinementQuery crop)
        else search_tool (primaryQuery crop issue))
  | [], acc => by simp
  | x :: l, acc => by
    rw [List.foldl_cons, research_foldl_eq search_tool full crop l _]
    simp [List.append_assoc]

theorem queries_foldl_eq (full : List String) (crop : String) :
    ∀ (l : List String) (acc : List String),
      (l.foldl
        (fun queries issue =>
          queries ++ [primaryQuery crop issue] ++
            (if refineTrigger full issue then [refinementQuery crop] else []))
        acc) =
      acc ++ l.flatMap (fun issue =>
        [primaryQuery crop issue] ++
          (if refineTrigger full issue then [refinementQuery crop] else []))
  | [], acc => by simp
  | x :: l, acc => by
    rw [List.foldl_cons, queries_foldl_eq full crop l _]
    simp [List.append_assoc]

theorem count_refinement_flatMap (crop : String) (b : Bool) :
    ∀ l : List String,
      ((l.flatMap fun issue =>
          [primaryQuery crop issue] ++
            (if hasSubstr issue "Nitrogen" && b then [refinementQuery crop] else [])).count
        (refinementQuery crop)) =
      if b then (l.filter fun a => hasSubstr a "Nitrogen").length else 0
  | [] => by cases b <;> simp
  | x :: l => by
    have ih := count_refinement_flatMap crop b l
    cases b <;> cases hx : hasSubstr x "Nitrogen" <;>
      simp_all [List.count_cons, List.count_append,
        primaryQuery_ne_refinementQuery crop x, List.filter_cons]

/-- C1: for every anomaly list and crop, the research operation issues the
secondary query `crop ++ " nitrogen deficiency heavy rainfall leaching"`
exactly once per anomaly label containing "Nitrogen" iff some anomaly label
in the list contains "Moisture" (and zero times otherwise), and the
secondary query's results are appended immediately after that anomaly's
primary-query results in the returned findings. -/
theorem c1_refinement_behaviour (search_tool : String → List Doc) (anomalies : List String)
    (crop : String) :
    (researchQueries anomalies crop).count (refinementQuery crop) =
      (if anomalies.any (fun a => hasSubstr a "Moisture")
        then (anomalies.filter fun a => hasSubstr a "Nitrogen").length else 0) ∧
    research_solutions search_tool anomalies crop =
      anomalies.flatMap fun issue =>
        search_tool (primaryQuery crop issue) ++
          (if hasSubstr issue "Nitrogen" && anomalies.any (fun a => hasSubstr a "Moisture")
            then search_tool (refinementQuery crop) else []) := by
  by_cases hA : anomalies = []
  · subst hA
    simp [researchQueries, research_solutions]
  · constructor
    · rw [researchQueries, if_neg hA, queries_foldl_eq, List.nil_append]
      simp only [refineTrigger_eq]
      rw [count_refinement_flatMap crop (anomalies.any fun a => hasSubstr a "Moisture")
        anomalies]
    · rw [research_solutions, if_neg hA, research_foldl_eq, List.nil_append]
      have hfun :
          (fun issue =>
            if refineTrigger anomalies issue then
              search_tool (primaryQuery crop issue) ++ search_tool (refinementQuery crop)
            else search_tool (primaryQuery crop issue)) =
          (fun issue =>
            search_tool (primaryQuery crop issue) ++
              (if hasSubstr issue "Nitrogen" && anomalies.any (fun a => hasSubstr a "Moisture")
                then search_tool (refinementQuery crop) else [])) := by
        funext issue
        rw [refineTrigger_eq]
        cases hB : (hasSubstr issue "Nitrogen" && anomalies.any fun a => hasSubstr a "Moisture") <;>
          simp
      rw [hfun]

theorem searchSim_spec (query : String) (max_results : Nat) (h : 0 < max_results) :
    (searchSim query max_results).length ≤ max_results ∧
      searchSim query max_results ≠ [] ∧
      (simResults query = [] → searchSim query max_results = [fallbackDoc query]) := by
  simp only [searchSim]
  by_cases hr : simResults query = []
  · rw [if_neg (not_not_intro hr)]
    exact ⟨by simpa using h, by simp, fun _ => rfl⟩
  · rw [if_pos hr]
    refine ⟨by rw [List.length_take]; exact min_le_left _ _,
      List.length_pos.mp ?_, fun hc => absurd hc hr⟩
    rw [List.length_take]
    exact lt_min h (List.length_pos.mpr hr)

/-- C9 counterexample: with simulation mode off and the live lookup
unavailable, the non-empty query "soil pests" with positive
`max_results = 1` returns the fixed three-document fallback, whose length
exceeds `max_results` — so the claimed length bound fails. -/
theorem c9_counterexample :
    ("soil pests" : String) ≠ "" ∧ 0 < 1 ∧
      ¬ ((search false none "soil pests" 1).length ≤ 1) := by
  decide

/-- C9 (amended): the search operation never raises (it is total); in
simulation mode, for positive `max_results`, it returns a non-empty
sequence of at most `max_results` documents; in live mode it returns the
external lookup's results unchanged on success, and on internal failure
(DDGS unavailable or raising) it returns the fixed non-empty
three-document fallback, whose length is 3 regardless of `max_results`. -/
theorem c9_search_contract (query : String) (max_results : Nat) (ddg : Option (List Doc))
    (h : 0 < max_results) :
    ((search true ddg query max_results).length ≤ max_results ∧
      search true ddg query max_results ≠ []) ∧
    (∀ results, search false (some results) query max_results = results) ∧
    (search false none query max_results ≠ [] ∧
      (search false none query max_results).length = 3) := by
  have hs := searchSim_spec query max_results h
  refine ⟨⟨hs.1, hs.2.1⟩, fun results => rfl, ?_, ?_⟩
  · show (mock_db.lookup cornFallbackKey).getD [] ≠ []
    decide
  · show ((mock_db.lookup cornFallbackKey).getD []).length = 3
    decide

theorem c9_search_contract_witness :
    ((search true none "corn" 1).length ≤ 1 ∧ search true none "corn" 1 ≠ []) ∧
    (∀ results, search false (some results) "corn" 1 = results) ∧
    (search false none "corn" 1 ≠ [] ∧ (search false none "corn" 1).length = 3) :=
  c9_search_contract "corn" 1 none (by decide)

/-- C10: in simulation mode (the constructor default), for every query and
positive `max_results`, the search returns a non-empty sequence; when no
mock-database key matches, it returns exactly the one-element generic
fallback document, whose title embeds the query.  Hence with the built-in
simulated lookup the all-queries-empty scenario cannot arise. -/
theorem c10_simulation_never_empty (ddg : Option (List Doc)) (query : String)
    (max_results : Nat) (h : 0 < max_results) :
    search true ddg query max_results ≠ [] ∧
    (simResults query = [] → search true ddg query max_results = [fallbackDoc query]) ∧
    (fallbackDoc query).title = "Agricultural Bulletin: " ++ query := by
  have hs := searchSim_spec query max_results h
  exact ⟨hs.2.1, fun hr => hs.2.2 hr, rfl⟩

theorem c10_simulation_never_empty_witness :
    search true none "llama farming" 1 ≠ [] ∧
    (simResults "llama farming" = [] →
      search true none "llama farming" 1 = [fallbackDoc "llama farming"]) ∧
    (fallbackDoc "llama farming").title = "Agricultural Bulletin: " ++ "llama farming" :=
  c10_simulation_never_empty none "llama farming" 1 (by decide)

end AgriNexus
